import Mathlib

/-!
Shallow embedding of the alert evaluation engine of the stock-watchlist bot
(source file `alerts.py`).  Prices and indicator values are modelled as
rationals, timestamps as integers (seconds); `datetime.now()` becomes an
explicit `now` parameter.  Python dictionaries holding alerts become the
`Alert` structure, whose `Option` fields model keys that are present only in
some alert kinds.  The portfolio alerts tag their `type` key with a plain
string instead of a member of the `AlertType` enum; the sum type `AlertTag`
records this distinction, and accessing `.value` on a string tag is modelled
as a raised `AttributeError` (the `Except` error case).
-/

namespace StockBot

/-- The `AlertType` enum of `alerts.py`. -/
inductive AlertType
  | TARGET_HIT
  | STOP_LOSS
  | TECHNICAL_BUY
  | TECHNICAL_SELL
  | NEWS_ALERT
  | VOLUME_SPIKE
deriving DecidableEq, Repr

/-- The `.value` attribute of an `AlertType` enum member. -/
def AlertType.value : AlertType → String
  | .TARGET_HIT => "target_hit"
  | .STOP_LOSS => "stop_loss"
  | .TECHNICAL_BUY => "technical_buy"
  | .TECHNICAL_SELL => "technical_sell"
  | .NEWS_ALERT => "news_alert"
  | .VOLUME_SPIKE => "volume_spike"

/-- The value stored under the `type` key of an alert dict: either a member
of the `AlertType` enum (price and technical alerts) or a raw string
(portfolio alerts use `"portfolio_loss"` / `"low_winrate"`). -/
inductive AlertTag
  | enum (t : AlertType)
  | str (s : String)
deriving DecidableEq, Repr

/-- An alert dict.  `Option` fields model dict keys present only in some
alert kinds (price alerts carry `current_price`/`trigger_price`, technical
alerts carry `indicator`/`value`, portfolio alerts carry neither). -/
structure Alert where
  type : AlertTag
  symbol : String
  current_price : Option ℚ := none
  trigger_price : Option ℚ := none
  indicator : Option String := none
  value : Option ℚ := none
  timestamp : ℤ
  priority : String
deriving DecidableEq, Repr

/-- A row of stock data, as consumed by `check_price_alerts` and
`check_portfolio_alerts`: the numeric fields after the `float(...)`
coercions, with the `.get(key, 0)` default already applied. -/
structure StockData where
  symbol : String
  current_price : ℚ
  target_price : ℚ
  stop_loss : ℚ
  buy_price : ℚ
deriving DecidableEq, Repr

/-- `AlertManager.check_price_alerts`.  The `not all([...])` guard returns
an empty list when any of the four prices is zero (falsy).  The two `hit`
rules form one `if/elif` chain, the two `approaching` rules another;
the appends happen in source order (hit first, then approaching). -/
def check_price_alerts (now : ℤ) (d : StockData) : List Alert :=
  if d.current_price = 0 ∨ d.target_price = 0 ∨ d.stop_loss = 0 ∨ d.buy_price = 0 then
    []
  else
    let hits : List Alert :=
      if d.current_price ≥ d.target_price then
        [{ type := .enum .TARGET_HIT, symbol := d.symbol,
           current_price := some d.current_price,
           trigger_price := some d.target_price,
           timestamp := now, priority := "HIGH" }]
      else if d.current_price ≤ d.stop_loss then
        [{ type := .enum .STOP_LOSS, symbol := d.symbol,
           current_price := some d.current_price,
           trigger_price := some d.stop_loss,
           timestamp := now, priority := "CRITICAL" }]
      else []
    let target_buffer := d.target_price * (95 / 100)
    let stop_buffer := d.stop_loss * (105 / 100)
    let approaching : List Alert :=
      if target_buffer ≤ d.current_price ∧ d.current_price < d.target_price then
        [{ type := .enum .TARGET_HIT, symbol := d.symbol,
           current_price := some d.current_price,
           trigger_price := some target_buffer,
           timestamp := now, priority := "MEDIUM" }]
      else if d.stop_loss < d.current_price ∧ d.current_price ≤ stop_buffer then
        [{ type := .enum .STOP_LOSS, symbol := d.symbol,
           current_price := some d.current_price,
           trigger_price := some stop_buffer,
           timestamp := now, priority := "MEDIUM" }]
      else []
    hits ++ approaching

/-- An indicator snapshot as consumed by `check_technical_alerts`: the
values read from the `indicators` dict, with the `.get(key, default)`
defaults (rsi 50, macd/signal/histogram 0, bb_position 0.5, emas 0,
current_price 0) already applied. -/
structure IndicatorSnapshot where
  rsi : ℚ
  macd : ℚ
  macd_signal : ℚ
  macd_histogram : ℚ
  bb_position : ℚ
  ema_50 : ℚ
  ema_200 : ℚ
  current_price : ℚ
deriving DecidableEq, Repr

/-- Result of running the `try` block of `check_technical_alerts`:
either it runs to completion (`ok`) or an exception escapes to the
`except` handler (`caught`); in both cases the handler / fall-through
returns the `alerts` list accumulated so far. -/
inductive TechResult
  | ok (alerts : List Alert)
  | caught (alerts : List Alert)
deriving DecidableEq, Repr

/-- The list the function returns: the accumulated alerts, whether or not
an exception was caught (`except ... logger.error ...; return alerts`). -/
def TechResult.alerts : TechResult → List Alert
  | .ok l => l
  | .caught l => l

/-- The RSI rules of `check_technical_alerts` (an `if/elif` chain). -/
def rsiAlerts (now : ℤ) (symbol : String) (ind : IndicatorSnapshot) : List Alert :=
  if ind.rsi ≤ 25 then
    [{ type := .enum .TECHNICAL_BUY, symbol := symbol, indicator := some "RSI",
       value := some ind.rsi, timestamp := now, priority := "HIGH" }]
  else if ind.rsi ≥ 75 then
    [{ type := .enum .TECHNICAL_SELL, symbol := symbol, indicator := some "RSI",
       value := some ind.rsi, timestamp := now, priority := "HIGH" }]
  else []

/-- The MACD crossover rule of `check_technical_alerts`. -/
def macdAlerts (now : ℤ) (symbol : String) (ind : IndicatorSnapshot) : List Alert :=
  if ind.macd > ind.macd_signal ∧ |ind.macd - ind.macd_signal| < 1 / 10 then
    [{ type := .enum .TECHNICAL_BUY, symbol := symbol, indicator := some "MACD",
       value := some (ind.macd - ind.macd_signal), timestamp := now,
       priority := "MEDIUM" }]
  else []

/-- The Bollinger-band rules of `check_technical_alerts` (`if/elif`). -/
def bollingerAlerts (now : ℤ) (symbol : String) (ind : IndicatorSnapshot) : List Alert :=
  if ind.bb_position ≤ 1 / 20 then
    [{ type := .enum .TECHNICAL_BUY, symbol := symbol,
       indicator := some "Bollinger Bands", value := some ind.bb_position,
       timestamp := now, priority := "MEDIUM" }]
  else if ind.bb_position ≥ 19 / 20 then
    [{ type := .enum .TECHNICAL_SELL, symbol := symbol,
       indicator := some "Bollinger Bands", value := some ind.bb_position,
       timestamp := now, priority := "MEDIUM" }]
  else []

/-- The `try` block of `AlertManager.check_technical_alerts`, rule by rule
in source order.  The golden-cross rule evaluates
`ema_50 > ema_200 and abs(ema_50 - ema_200) / ema_200 < 0.02` with Python
short-circuiting: when `ema_50 > ema_200` holds and `ema_200 = 0`, the
division raises `ZeroDivisionError`, which escapes to the `except` handler
with the alerts accumulated so far (`caught`). -/
def technicalTry (now : ℤ) (symbol : String) (ind : IndicatorSnapshot) : TechResult :=
  let acc := rsiAlerts now symbol ind ++ macdAlerts now symbol ind ++
    bollingerAlerts now symbol ind
  if ind.ema_50 > ind.ema_200 then
    if ind.ema_200 = 0 then
      .caught acc
    else if |ind.ema_50 - ind.ema_200| / ind.ema_200 < 1 / 50 then
      .ok (acc ++
        [{ type := .enum .TECHNICAL_BUY, symbol := symbol,
           indicator := some "EMA Cross",
           value := some ((ind.ema_50 - ind.ema_200) / ind.ema_200),
           timestamp := now, priority := "HIGH" }])
    else .ok acc
  else .ok acc

/-- `AlertManager.check_technical_alerts` on a non-empty snapshot: the
`except Exception` handler logs and falls through to `return alerts`, so
the function returns the accumulated list in both outcomes. -/
def check_technical_alerts (now : ℤ) (symbol : String) (ind : IndicatorSnapshot) :
    List Alert :=
  (technicalTry now symbol ind).alerts

/-- Whether rule evaluation raises an exception on the given snapshot:
the only raising site in the numeric model is the golden-cross division
by `ema_200 = 0`, reached when `ema_50 > ema_200`. -/
def technicalRaises (ind : IndicatorSnapshot) : Bool :=
  decide (ind.ema_50 > ind.ema_200 ∧ ind.ema_200 = 0)

/-- `self.cooldown_period = timedelta(hours=1)`, in seconds. -/
def cooldown_period : ℤ := 3600

/-- The inner scan of `filter_duplicate_alerts`: is there a historical
alert with the same symbol and type whose timestamp is within the
cooldown period of `current_time`? -/
def is_duplicate (hist : List Alert) (current_time : ℤ) (a : Alert) : Bool :=
  hist.any fun h => decide (h.symbol = a.symbol ∧ h.type = a.type ∧
    current_time - h.timestamp < cooldown_period)

/-- One loop iteration of `filter_duplicate_alerts`: the state is
`(filtered_alerts, alert_history)`; a non-duplicate is appended to both
(so it is visible to the scans of later candidates in the same call). -/
def dedupStep (current_time : ℤ) (st : List Alert × List Alert) (a : Alert) :
    List Alert × List Alert :=
  if is_duplicate st.2 current_time a then st else (st.1 ++ [a], st.2 ++ [a])

/-- Python `l[-100:]`: the suffix of the last `n` entries (the whole list
when it is shorter than `n`). -/
def takeLast (n : ℕ) (l : List α) : List α :=
  l.drop (l.length - n)

/-- `AlertManager.filter_duplicate_alerts`.  Returns the output batch and
the new `self.alert_history`: after the loop the history is truncated to
its most recent 100 entries (`self.alert_history = self.alert_history[-100:]`),
regardless of cooldown status. -/
def filter_duplicate_alerts (hist : List Alert) (current_time : ℤ)
    (new_alerts : List Alert) : List Alert × List Alert :=
  let st := new_alerts.foldl (dedupStep current_time) ([], hist)
  (st.1, takeLast 100 st.2)

/-- A sequence of calls to the dedup filter starting from the empty
history: the state is (all alerts admitted so far in order, current
history).  Each call supplies its evaluation time and candidate batch. -/
def runTrace (calls : List (ℤ × List Alert)) : List Alert × List Alert :=
  calls.foldl
    (fun st call =>
      let r := filter_duplicate_alerts st.2 call.1 call.2
      (st.1 ++ r.1, r.2))
    ([], [])

/-- The per-record pnl% of `check_portfolio_alerts`:
`((current_price - buy_price) / buy_price) * 100`. -/
def pnl_percent (buy current : ℚ) : ℚ :=
  (current - buy) / buy * 100

/-- The claim-side total pnl: the pnl% summed over exactly the records
with positive buy and current price. -/
def spec_total_pnl : List StockData → ℚ
  | [] => 0
  | s :: tl =>
    (if s.buy_price > 0 ∧ s.current_price > 0 then
      pnl_percent s.buy_price s.current_price
    else 0) + spec_total_pnl tl

/-- The claim-side count of profitable positions: records with positive
prices and positive pnl%. -/
def spec_profitable : List StockData → ℕ
  | [] => 0
  | s :: tl =>
    (if s.buy_price > 0 ∧ s.current_price > 0 ∧
        pnl_percent s.buy_price s.current_price > 0 then 1 else 0) +
      spec_profitable tl

/-- Count of losing positions: records with positive prices and
non-positive pnl% (the code counts `pnl <= 0` as losing). -/
def spec_losing : List StockData → ℕ
  | [] => 0
  | s :: tl =>
    (if s.buy_price > 0 ∧ s.current_price > 0 ∧
        ¬pnl_percent s.buy_price s.current_price > 0 then 1 else 0) +
      spec_losing tl

/-- One iteration of the accumulation loop of `check_portfolio_alerts`:
a record with positive buy and current price adds its pnl% to the running
total and is counted as profitable (`pnl > 0`) or losing; other records
are skipped.  State: `(profitable_positions, losing_positions, total_pnl)`. -/
def portfolioStep (st : ℕ × ℕ × ℚ) (s : StockData) : ℕ × ℕ × ℚ :=
  if s.buy_price > 0 ∧ s.current_price > 0 then
    let pnl := pnl_percent s.buy_price s.current_price
    if pnl > 0 then (st.1 + 1, st.2.1, st.2.2 + pnl)
    else (st.1, st.2.1 + 1, st.2.2 + pnl)
  else st

/-- The accumulation loop of `check_portfolio_alerts` over all records. -/
def portfolioFold (stocks : List StockData) : ℕ × ℕ × ℚ :=
  stocks.foldl portfolioStep (0, 0, 0)

/-- `avg_pnl = total_pnl / total_positions` with
`total_positions = len(stocks_data)` (skipped records still count in the
denominator). -/
def portfolio_avg_pnl (stocks : List StockData) : ℚ :=
  (portfolioFold stocks).2.2 / (stocks.length : ℚ)

/-- `win_rate = (profitable_positions / total_positions) * 100`, again
over `total_positions = len(stocks_data)`. -/
def portfolio_win_rate (stocks : List StockData) : ℚ :=
  ((portfolioFold stocks).1 : ℚ) / (stocks.length : ℚ) * 100

/-- `AlertManager.check_portfolio_alerts`.  The portfolio alerts tag
`type` with a raw string, not an `AlertType` member. -/
def check_portfolio_alerts (now : ℤ) (stocks : List StockData) : List Alert :=
  if stocks.isEmpty then []
  else if 0 < stocks.length then
    if portfolio_avg_pnl stocks ≤ -10 then
      [{ type := .str "portfolio_loss", symbol := "PORTFOLIO",
         timestamp := now, priority := "HIGH" }]
    else if portfolio_win_rate stocks < 30 then
      [{ type := .str "low_winrate", symbol := "PORTFOLIO",
         timestamp := now, priority := "MEDIUM" }]
    else []
  else []

/-- Python `'_'.replace`-then-`.title()` as used on `alert['type'].value`:
underscores become spaces and each word is capitalized. -/
def humanize (s : String) : String :=
  " ".intercalate (((s.replace "_" " ").splitOn " ").map (fun w => w.capitalize))

/-- Accessing `alert['type'].value`: fine on an `AlertType` enum member,
but a raw string has no `.value` attribute, so the portfolio alerts make
this raise `AttributeError`. -/
def tagValue : AlertTag → Except String String
  | .enum t => .ok t.value
  | .str _ => .error "AttributeError: Alert type string has no attribute value"

/-- One priority bucket of `get_alert_summary`: append one line per alert
(symbol plus humanized type name) to the running summary, propagating the
`AttributeError` raised on a string-tagged type. -/
def bucketLines (bucket : List Alert) (acc : String) : Except String String :=
  bucket.foldlM
    (fun s a => (tagValue a.type).map
      (fun v => s ++ "• " ++ a.symbol ++ ": " ++ humanize v ++ "\n"))
    acc

/-- `AlertManager.get_alert_summary`: empty input yields the fixed
sentence; otherwise the alerts are grouped into CRITICAL/HIGH/MEDIUM
buckets and rendered in that order, each non-empty bucket followed by a
blank line (except MEDIUM).  The result is `Except.error` when the
rendering raises (portfolio alerts reaching `type.value`). -/
def get_alert_summary (alerts : List Alert) : Except String String :=
  if alerts.isEmpty then .ok "No alerts at this time."
  else
    let critical := alerts.filter fun a => decide (a.priority = "CRITICAL")
    let high := alerts.filter fun a => decide (a.priority = "HIGH")
    let medium := alerts.filter fun a => decide (a.priority = "MEDIUM")
    let header := "📋 **Alert Summary** (" ++ toString alerts.length ++ " alerts)\n\n"
    Except.bind
      (if critical.isEmpty then .ok header
       else Except.map (fun s => s ++ "\n")
        (bucketLines critical
          (header ++ "🚨 **CRITICAL (" ++ toString critical.length ++ "):**\n")))
      fun s1 =>
        Except.bind
          (if high.isEmpty then .ok s1
           else Except.map (fun s => s ++ "\n")
            (bucketLines high
              (s1 ++ "❗ **HIGH (" ++ toString high.length ++ "):**\n")))
          fun s2 =>
            if medium.isEmpty then .ok s2
            else bucketLines medium
              (s2 ++ "⚠️ **MEDIUM (" ++ toString medium.length ++ "):**\n")

end StockBot

namespace StockBot

/-- C8: a zero (falsy) price field makes `check_price_alerts` return the
empty list via the `not all([...])` guard. -/
theorem check_price_alerts_zero_guard (now : ℤ) (d : StockData)
    (h : d.current_price = 0 ∨ d.target_price = 0 ∨ d.stop_loss = 0 ∨ d.buy_price = 0) :
    check_price_alerts now d = [] := by
  unfold check_price_alerts
  simp [h]

/-- C8 witness: a record with a zero stop loss yields no alerts. -/
theorem check_price_alerts_zero_guard_witness :
    check_price_alerts 0 ⟨"AAPL", 100, 120, 0, 90⟩ = [] :=
  check_price_alerts_zero_guard 0 ⟨"AAPL", 100, 120, 0, 90⟩ (by decide)

/-- C6: with all four prices nonzero, buy < stop < target and
current ≥ target, the evaluator output contains exactly one alert of type
`TARGET_HIT`, with priority HIGH and trigger value equal to the target
price (the approaching-target rule cannot fire since current < target
fails). -/
theorem target_hit_exactly_one (now : ℤ) (d : StockData)
    (h1 : d.current_price ≠ 0) (h2 : d.target_price ≠ 0)
    (h3 : d.stop_loss ≠ 0) (h4 : d.buy_price ≠ 0)
    (hbs : d.buy_price < d.stop_loss) (hst : d.stop_loss < d.target_price)
    (hc : d.current_price ≥ d.target_price) :
    (check_price_alerts now d).filter
        (fun a => decide (a.type = AlertTag.enum AlertType.TARGET_HIT)) =
      [{ type := .enum .TARGET_HIT, symbol := d.symbol,
         current_price := some d.current_price,
         trigger_price := some d.target_price,
         timestamp := now, priority := "HIGH" }] := by
  unfold check_price_alerts
  rw [if_neg (by push_neg; exact ⟨h1, h2, h3, h4⟩)]
  simp only [ge_iff_le, hc, if_true]
  have hnotappr : ¬(d.target_price * (95 / 100) ≤ d.current_price ∧
      d.current_price < d.target_price) := by
    rintro ⟨-, hlt⟩
    exact absurd hc (not_le.mpr hlt)
  rw [if_neg hnotappr]
  split <;> simp [List.filter]

/-- C6 witness: buy 50 < stop 80 < target 100, current 101 gives exactly
the target-hit alert. -/
theorem target_hit_exactly_one_witness :
    (check_price_alerts 7 ⟨"TSLA", 101, 100, 80, 50⟩).filter
        (fun a => decide (a.type = AlertTag.enum AlertType.TARGET_HIT)) =
      [{ type := .enum .TARGET_HIT, symbol := "TSLA",
         current_price := some 101, trigger_price := some 100,
         timestamp := 7, priority := "HIGH" }] :=
  target_hit_exactly_one 7 ⟨"TSLA", 101, 100, 80, 50⟩
    (by norm_num) (by norm_num) (by norm_num) (by norm_num)
    (by norm_num) (by norm_num) (by norm_num)

/-- Evaluation of the price checker on stop 100 / target 102 / current 103:
both the exact target hit and the approaching-stop alert are emitted. -/
theorem check_price_alerts_eval_X :
    check_price_alerts 0 ⟨"X", 103, 102, 100, 50⟩ =
      [{ type := .enum .TARGET_HIT, symbol := "X", current_price := some 103,
         trigger_price := some 102, timestamp := 0, priority := "HIGH" },
       { type := .enum .STOP_LOSS, symbol := "X", current_price := some 103,
         trigger_price := some 105, timestamp := 0, priority := "MEDIUM" }] := by
  norm_num [check_price_alerts]

/-- C3 counterexample: stop 100, target 102, current 103.  The current
price is an exact target hit (103 ≥ 102) and lies in the approaching-stop
band (100 < 103 ≤ 105), and the evaluator DOES emit an approaching-stop
alert (type STOP_LOSS, priority MEDIUM), contrary to the claim that an
exact hit suppresses the approaching check for the opposite side. -/
theorem approaching_stop_not_suppressed_counterexample :
    ((103 : ℚ) ≥ 102 ∧ (100 : ℚ) < 103 ∧ (103 : ℚ) ≤ 100 * (105 / 100)) ∧
      (check_price_alerts 0 ⟨"X", 103, 102, 100, 50⟩).filter
          (fun a => decide (a.type = AlertTag.enum AlertType.STOP_LOSS ∧
            a.priority = "MEDIUM")) ≠ [] := by
  refine ⟨by norm_num, ?_⟩
  rw [check_price_alerts_eval_X]
  simp [List.filter]

/-- C3 amended: an exact target hit (current ≥ target) suppresses the
approaching check for the SAME side — no approaching-target (MEDIUM
TARGET_HIT) alert is emitted — but the approaching-stop check still runs:
whenever stop < current ≤ stop × 1.05 an approaching-stop alert of type
STOP_LOSS with priority MEDIUM is emitted. -/
theorem target_hit_approaching_behavior (now : ℤ) (d : StockData)
    (h1 : d.current_price ≠ 0) (h2 : d.target_price ≠ 0)
    (h3 : d.stop_loss ≠ 0) (h4 : d.buy_price ≠ 0)
    (hc : d.current_price ≥ d.target_price) :
    ((check_price_alerts now d).filter
        (fun a => decide (a.type = AlertTag.enum AlertType.TARGET_HIT ∧
          a.priority = "MEDIUM")) = []) ∧
    (d.stop_loss < d.current_price ∧ d.current_price ≤ d.stop_loss * (105 / 100) →
      (check_price_alerts now d).filter
          (fun a => decide (a.type = AlertTag.enum AlertType.STOP_LOSS ∧
            a.priority = "MEDIUM")) ≠ []) := by
  unfold check_price_alerts
  rw [if_neg (by push_neg; exact ⟨h1, h2, h3, h4⟩)]
  simp only [ge_iff_le, hc, if_true]
  have hnotappr : ¬(d.target_price * (95 / 100) ≤ d.current_price ∧
      d.current_price < d.target_price) := by
    rintro ⟨-, hlt⟩
    exact absurd hc (not_le.mpr hlt)
  rw [if_neg hnotappr]
  constructor
  · split <;> simp [List.filter]
  · intro hband
    rw [if_pos hband]
    simp [List.filter]

/-- C3 amended witness: stop 100, target 102, current 103 emits no
MEDIUM target-type alert, and emits a MEDIUM approaching-stop alert. -/
theorem target_hit_approaching_behavior_witness :
    ((check_price_alerts 0 ⟨"X", 103, 102, 100, 50⟩).filter
        (fun a => decide (a.type = AlertTag.enum AlertType.TARGET_HIT ∧
          a.priority = "MEDIUM")) = []) ∧
    ((check_price_alerts 0 ⟨"X", 103, 102, 100, 50⟩).filter
        (fun a => decide (a.type = AlertTag.enum AlertType.STOP_LOSS ∧
          a.priority = "MEDIUM")) ≠ []) := by
  have h := target_hit_approaching_behavior 0 ⟨"X", 103, 102, 100, 50⟩
    (by norm_num) (by norm_num) (by norm_num) (by norm_num) (by norm_num)
  exact ⟨h.1, h.2 (by norm_num)⟩

/-- Evaluation of the price checker on stop 92 / target 100 / current 96:
only the approaching-target alert is emitted. -/
theorem check_price_alerts_eval_Y :
    check_price_alerts 0 ⟨"Y", 96, 100, 92, 50⟩ =
      [{ type := .enum .TARGET_HIT, symbol := "Y", current_price := some 96,
         trigger_price := some 95, timestamp := 0, priority := "MEDIUM" }] := by
  norm_num [check_price_alerts]

/-- C4 counterexample: target 100, stop 92, current 96.  The current price
lies in the approaching-stop band (92 < 96 ≤ 96.6) and simultaneously in
the approaching-target band (95 ≤ 96 < 100); the `elif` makes the
approaching-target alert win and NO approaching-stop (STOP_LOSS) alert is
emitted, contrary to the claim of independence. -/
theorem approaching_stop_elif_counterexample :
    ((92 : ℚ) < 96 ∧ (96 : ℚ) ≤ 92 * (105 / 100) ∧
      (100 : ℚ) * (95 / 100) ≤ 96 ∧ (96 : ℚ) < 100) ∧
      (check_price_alerts 0 ⟨"Y", 96, 100, 92, 50⟩).filter
          (fun a => decide (a.type = AlertTag.enum AlertType.STOP_LOSS)) = [] := by
  refine ⟨by norm_num, ?_⟩
  rw [check_price_alerts_eval_Y]
  simp [List.filter]

/-- C4 amended: the approaching-stop rule is the `elif` branch of the
approaching-target rule, so it fires (type STOP_LOSS, priority MEDIUM,
trigger stop × 1.05) exactly when stop < current ≤ stop × 1.05 AND the
approaching-target band does not hold; when both bands hold, only the
approaching-target alert is emitted and no STOP_LOSS-typed alert at all
appears.  The first tier (hit rules) does not affect this. -/
theorem approaching_stop_conditional (now : ℤ) (d : StockData)
    (h1 : d.current_price ≠ 0) (h2 : d.target_price ≠ 0)
    (h3 : d.stop_loss ≠ 0) (h4 : d.buy_price ≠ 0)
    (hlo : d.stop_loss < d.current_price)
    (hhi : d.current_price ≤ d.stop_loss * (105 / 100)) :
    (¬(d.target_price * (95 / 100) ≤ d.current_price ∧
        d.current_price < d.target_price) →
      (check_price_alerts now d).filter
          (fun a => decide (a.type = AlertTag.enum AlertType.STOP_LOSS ∧
            a.priority = "MEDIUM" ∧
            a.trigger_price = some (d.stop_loss * (105 / 100)))) ≠ []) ∧
    (d.target_price * (95 / 100) ≤ d.current_price ∧
        d.current_price < d.target_price →
      (check_price_alerts now d).filter
          (fun a => decide (a.type = AlertTag.enum AlertType.STOP_LOSS)) = []) := by
  unfold check_price_alerts
  rw [if_neg (by push_neg; exact ⟨h1, h2, h3, h4⟩)]
  dsimp only
  constructor
  · intro hnotappr
    split_ifs <;> simp_all [List.filter]
  · rintro ⟨hta, htb⟩
    split_ifs <;> simp_all [List.filter] <;> linarith

/-- C4 amended witness: both the fires case (stop 92, target 200,
current 96) and the suppressed case (stop 92, target 100, current 96). -/
theorem approaching_stop_conditional_witness :
    ((check_price_alerts 0 ⟨"Y", 96, 200, 92, 50⟩).filter
        (fun a => decide (a.type = AlertTag.enum AlertType.STOP_LOSS ∧
          a.priority = "MEDIUM" ∧
          a.trigger_price = some ((92 : ℚ) * (105 / 100)))) ≠ []) ∧
    ((check_price_alerts 0 ⟨"Y", 96, 100, 92, 50⟩).filter
        (fun a => decide (a.type = AlertTag.enum AlertType.STOP_LOSS))) = [] := by
  constructor
  · have h := approaching_stop_conditional 0 ⟨"Y", 96, 200, 92, 50⟩
      (by norm_num) (by norm_num) (by norm_num) (by norm_num) (by norm_num) (by norm_num)
    exact h.1 (by norm_num)
  · have h := approaching_stop_conditional 0 ⟨"Y", 96, 100, 92, 50⟩
      (by norm_num) (by norm_num) (by norm_num) (by norm_num) (by norm_num) (by norm_num)
    exact h.2 (by norm_num)

/-- Every RSI-rule alert carries `indicator = "RSI"`. -/
theorem rsiAlerts_indicator (now : ℤ) (symbol : String) (ind : IndicatorSnapshot) :
    ∀ a ∈ rsiAlerts now symbol ind, a.indicator = some "RSI" := by
  unfold rsiAlerts
  split_ifs <;> simp

/-- Every MACD-rule alert carries `indicator = "MACD"`. -/
theorem macdAlerts_indicator (now : ℤ) (symbol : String) (ind : IndicatorSnapshot) :
    ∀ a ∈ macdAlerts now symbol ind, a.indicator = some "MACD" := by
  unfold macdAlerts
  split_ifs <;> simp

/-- Every Bollinger-rule alert carries `indicator = "Bollinger Bands"`. -/
theorem bollingerAlerts_indicator (now : ℤ) (symbol : String) (ind : IndicatorSnapshot) :
    ∀ a ∈ bollingerAlerts now symbol ind, a.indicator = some "Bollinger Bands" := by
  unfold bollingerAlerts
  split_ifs <;> simp

/-- C5 counterexample: snapshot with rsi 20, ema_50 = 1, ema_200 = 0.
Rule evaluation raises (golden-cross division by zero), yet the evaluator
does NOT return an empty alert set: the RSI buy alert accumulated before
the exception is returned, i.e. partial results escape. -/
theorem technical_exception_nonempty_counterexample :
    technicalRaises ⟨20, 0, 0, 0, 1 / 2, 1, 0, 10⟩ = true ∧
      check_technical_alerts 0 "Z" ⟨20, 0, 0, 0, 1 / 2, 1, 0, 10⟩ ≠ [] := by
  constructor
  · norm_num [technicalRaises]
  · norm_num [check_technical_alerts, technicalTry, TechResult.alerts,
      rsiAlerts, macdAlerts, bollingerAlerts]

/-- C5 amended: on every snapshot where rule evaluation raises, the
exception is caught at the evaluator boundary (`technicalTry` ends in
`caught`, never an uncaught raise), the function returns the alerts
accumulated by the rules that ran before the failing golden-cross rule
(a possibly non-empty partial result), and no golden-cross alert is
emitted. -/
theorem technical_exception_caught (now : ℤ) (symbol : String)
    (ind : IndicatorSnapshot) (h : technicalRaises ind = true) :
    technicalTry now symbol ind = .caught (rsiAlerts now symbol ind ++
        macdAlerts now symbol ind ++ bollingerAlerts now symbol ind) ∧
    check_technical_alerts now symbol ind = rsiAlerts now symbol ind ++
        macdAlerts now symbol ind ++ bollingerAlerts now symbol ind ∧
    (check_technical_alerts now symbol ind).filter
        (fun a => decide (a.indicator = some "EMA Cross")) = [] := by
  have hr : ind.ema_50 > ind.ema_200 ∧ ind.ema_200 = 0 := by
    simpa [technicalRaises] using h
  have hfst : technicalTry now symbol ind = .caught (rsiAlerts now symbol ind ++
      macdAlerts now symbol ind ++ bollingerAlerts now symbol ind) := by
    unfold technicalTry
    dsimp only
    rw [if_pos hr.1, if_pos hr.2]
  have hsnd : check_technical_alerts now symbol ind = rsiAlerts now symbol ind ++
      macdAlerts now symbol ind ++ bollingerAlerts now symbol ind := by
    unfold check_technical_alerts
    rw [hfst]
    rfl
  refine ⟨hfst, hsnd, ?_⟩
  rw [hsnd, List.filter_eq_nil_iff]
  intro a ha
  rcases List.mem_append.1 ha with h' | h'
  · rcases List.mem_append.1 h' with h'' | h''
    · simp [rsiAlerts_indicator now symbol ind a h'']
    · simp [macdAlerts_indicator now symbol ind a h'']
  · simp [bollingerAlerts_indicator now symbol ind a h']

/-- C5 amended witness: on the rsi-20 / ema_200-0 snapshot the exception
is caught and the returned list is the (non-empty) RSI prefix. -/
theorem technical_exception_caught_witness :
    technicalTry 0 "Z" ⟨20, 0, 0, 0, 1 / 2, 1, 0, 10⟩ =
      TechResult.caught (rsiAlerts 0 "Z" ⟨20, 0, 0, 0, 1 / 2, 1, 0, 10⟩ ++
        macdAlerts 0 "Z" ⟨20, 0, 0, 0, 1 / 2, 1, 0, 10⟩ ++
        bollingerAlerts 0 "Z" ⟨20, 0, 0, 0, 1 / 2, 1, 0, 10⟩) ∧
    (check_technical_alerts 0 "Z" ⟨20, 0, 0, 0, 1 / 2, 1, 0, 10⟩).filter
        (fun a => decide (a.indicator = some "EMA Cross")) = [] := by
  have h := technical_exception_caught 0 "Z" ⟨20, 0, 0, 0, 1 / 2, 1, 0, 10⟩
    (by norm_num [technicalRaises])
  exact ⟨h.1, h.2.2⟩

/-- One call of the dedup loop only appends: the final state is the
initial output and history extended by one common list of admitted
alerts, each taken from the input batch. -/
theorem dedup_foldl_state (t : ℤ) :
    ∀ (news out hist : List Alert), ∃ d,
      news.foldl (dedupStep t) (out, hist) = (out ++ d, hist ++ d) ∧
        ∀ x ∈ d, x ∈ news := by
  intro news
  induction news with
  | nil =>
    intro out hist
    exact ⟨[], by simp, by simp⟩
  | cons a tl ih =>
    intro out hist
    rw [List.foldl_cons]
    cases hdup : is_duplicate hist t a with
    | true =>
      obtain ⟨d, hd, hmem⟩ := ih out hist
      refine ⟨d, ?_, fun x hx => List.mem_cons_of_mem a (hmem x hx)⟩
      rw [show dedupStep t (out, hist) a = (out, hist) by simp [dedupStep, hdup]]
      exact hd
    | false =>
      obtain ⟨d, hd, hmem⟩ := ih (out ++ [a]) (hist ++ [a])
      refine ⟨a :: d, ?_, ?_⟩
      · rw [show dedupStep t (out, hist) a = (out ++ [a], hist ++ [a]) by
          simp [dedupStep, hdup]]
        rw [hd]
        simp
      · intro x hx
        rcases List.mem_cons.1 hx with hx | hx
        · exact hx ▸ List.mem_cons_self a tl
        · exact List.mem_cons_of_mem a (hmem x hx)

/-- The output accumulator of the dedup loop only grows. -/
theorem dedup_out_mono (t : ℤ) (news out hist : List Alert) (c : Alert)
    (hc : c ∈ out) : c ∈ (news.foldl (dedupStep t) (out, hist)).1 := by
  obtain ⟨d, hd, -⟩ := dedup_foldl_state t news out hist
  rw [hd]
  exact List.mem_append_left d hc

/-- Core suppression lemma: if some history entry `h0` is within the
cooldown of the evaluation time, then no candidate sharing its
(symbol, type) key is newly admitted by the loop. -/
theorem dedup_foldl_suppress (t : ℤ) (h0 : Alert) :
    ∀ (news out hist : List Alert), h0 ∈ hist →
      t - h0.timestamp < cooldown_period →
      ∀ c ∈ (news.foldl (dedupStep t) (out, hist)).1,
        c.symbol = h0.symbol → c.type = h0.type → c ∈ out := by
  intro news
  induction news with
  | nil =>
    intro out hist _ _ c hc _ _
    exact hc
  | cons a tl ih =>
    intro out hist h0mem hfresh c hc hsym htyp
    rw [List.foldl_cons] at hc
    cases hdup : is_duplicate hist t a with
    | true =>
      rw [show dedupStep t (out, hist) a = (out, hist) by simp [dedupStep, hdup]] at hc
      exact ih out hist h0mem hfresh c hc hsym htyp
    | false =>
      rw [show dedupStep t (out, hist) a = (out ++ [a], hist ++ [a]) by
        simp [dedupStep, hdup]] at hc
      have hout := ih (out ++ [a]) (hist ++ [a]) (List.mem_append_left _ h0mem)
        hfresh c hc hsym htyp
      rcases List.mem_append.1 hout with h | h
      · exact h
      · exfalso
        rw [List.mem_singleton] at h
        subst h
        have : is_duplicate hist t c = true := by
          unfold is_duplicate
          rw [List.any_eq_true]
          exact ⟨h0, h0mem, by simp [hsym.symm, htyp.symm, hfresh]⟩
        rw [this] at hdup
        exact Bool.true_eq_false.mp hdup

/-- Admission lemma: a candidate whose (symbol, type) key matches no
within-cooldown history entry and no earlier candidate of the batch is
admitted and appears in the output. -/
theorem dedup_admit_first (t : ℤ) (b : Alert) (hist pre post out : List Alert)
    (hstale : ∀ h ∈ hist, h.symbol = b.symbol → h.type = b.type →
      cooldown_period ≤ t - h.timestamp)
    (hpre : ∀ p ∈ pre, ¬(p.symbol = b.symbol ∧ p.type = b.type)) :
    b ∈ ((pre ++ b :: post).foldl (dedupStep t) (out, hist)).1 := by
  rw [List.foldl_append]
  obtain ⟨d, hd, hdmem⟩ := dedup_foldl_state t pre out hist
  rw [hd, List.foldl_cons]
  have hnodup : is_duplicate (hist ++ d) t b = false := by
    unfold is_duplicate
    rw [List.any_eq_false]
    intro h hmem
    simp only [decide_eq_true_eq]
    rcases List.mem_append.1 hmem with hh | hh
    · rintro ⟨hs, ht, hlt⟩
      exact absurd hlt (not_lt.mpr (hstale h hh hs ht))
    · rintro ⟨hs, ht, -⟩
      exact hpre h (hdmem h hh) ⟨hs, ht⟩
  rw [show dedupStep t (out ++ d, hist ++ d) b =
      (out ++ d ++ [b], hist ++ d ++ [b]) by simp [dedupStep, hnodup]]
  exact dedup_out_mono t post (out ++ d ++ [b]) (hist ++ d ++ [b]) b
    (List.mem_append_right _ (List.mem_singleton_self b))

/-- C1 amended: while an admitted alert `a` sits in the history and the
evaluation time is within 1 hour of `a`'s timestamp, every candidate with
the same (symbol, type) is suppressed — nothing with that key reaches the
output.  Conversely a same-key alert is admitted again and appears in the
output provided the evaluation time is at least 1 hour past the timestamp
of EVERY history entry with that key and no earlier candidate of the same
batch shares the key. -/
theorem dedup_cooldown_suppression (hist : List Alert) (now : ℤ) (a : Alert)
    (ha : a ∈ hist) :
    (now - a.timestamp < cooldown_period →
      ∀ news, ∀ c ∈ (filter_duplicate_alerts hist now news).1,
        ¬(c.symbol = a.symbol ∧ c.type = a.type)) ∧
    ((∀ h ∈ hist, h.symbol = a.symbol → h.type = a.type →
        cooldown_period ≤ now - h.timestamp) →
      ∀ b pre post, b.symbol = a.symbol → b.type = a.type →
        (∀ p ∈ pre, ¬(p.symbol = b.symbol ∧ p.type = b.type)) →
        b ∈ (filter_duplicate_alerts hist now (pre ++ b :: post)).1) := by
  constructor
  · intro hfresh news c hc hkey
    have := dedup_foldl_suppress now a news [] hist ha hfresh c hc hkey.1 hkey.2
    simp at this
  · intro hstale b pre post hbs hbt hpre
    refine dedup_admit_first now b hist pre post [] ?_ hpre
    intro h hh hs ht
    exact hstale h hh (hs.trans hbs) (ht.trans hbt)

/-- C1 witness: with `wA` (key (AAPL, TARGET_HIT), timestamp 0) in the
history, a same-key candidate at time 100 is suppressed, and a same-key
candidate at time 9000 (beyond the 3600 s cooldown) is admitted. -/
theorem dedup_cooldown_suppression_witness :
    ({ type := .enum .TARGET_HIT, symbol := "AAPL", timestamp := 100,
       priority := "HIGH" } : Alert) ∉
      (filter_duplicate_alerts
        [{ type := .enum .TARGET_HIT, symbol := "AAPL", timestamp := 0,
           priority := "MEDIUM" }] 100
        [{ type := .enum .TARGET_HIT, symbol := "AAPL", timestamp := 100,
           priority := "HIGH" }]).1 ∧
    ({ type := .enum .TARGET_HIT, symbol := "AAPL", timestamp := 9000,
       priority := "HIGH" } : Alert) ∈
      (filter_duplicate_alerts
        [{ type := .enum .TARGET_HIT, symbol := "AAPL", timestamp := 0,
           priority := "MEDIUM" }] 9000
        [{ type := .enum .TARGET_HIT, symbol := "AAPL", timestamp := 9000,
           priority := "HIGH" }]).1 := by
  constructor
  · intro hmem
    exact (dedup_cooldown_suppression
        [{ type := .enum .TARGET_HIT, symbol := "AAPL", timestamp := 0,
           priority := "MEDIUM" }] 100
        { type := .enum .TARGET_HIT, symbol := "AAPL", timestamp := 0,
          priority := "MEDIUM" }
        (List.mem_singleton_self _)).1
      (by decide) _ _ hmem ⟨rfl, rfl⟩
  · have := (dedup_cooldown_suppression
        [{ type := .enum .TARGET_HIT, symbol := "AAPL", timestamp := 0,
           priority := "MEDIUM" }] 9000
        { type := .enum .TARGET_HIT, symbol := "AAPL", timestamp := 0,
          priority := "MEDIUM" }
        (List.mem_singleton_self _)).2
      (by intro h hh hs ht
          rw [List.mem_singleton] at hh
          subst hh
          decide)
      ({ type := .enum .TARGET_HIT, symbol := "AAPL", timestamp := 9000,
         priority := "HIGH" } : Alert) [] [] rfl rfl (by simp)
    simpa using this

/-- C1 counterexample: `exA` (timestamp 0) is admitted by the first call;
a same-key alert `exC` is admitted at time 3700 (cooldown of `exA`
expired); at time 4000 — more than 1 hour after `exA`'s timestamp — a
same-key alert `exB` is nevertheless suppressed, because `exC` is still
fresh: being later than 1 hour after the originally admitted alert does
not guarantee readmission. -/
theorem dedup_readmission_counterexample :
    (filter_duplicate_alerts [] 0
        [{ type := .enum .TARGET_HIT, symbol := "AAPL", timestamp := 0,
           priority := "MEDIUM" }]).1 =
      [{ type := .enum .TARGET_HIT, symbol := "AAPL", timestamp := 0,
         priority := "MEDIUM" }] ∧
    (runTrace
        [(0,
          [{ type := .enum .TARGET_HIT, symbol := "AAPL", timestamp := 0,
             priority := "MEDIUM" }]),
         (3700,
          [{ type := .enum .TARGET_HIT, symbol := "AAPL", timestamp := 3700,
             priority := "MEDIUM" }])]).2 =
      [{ type := .enum .TARGET_HIT, symbol := "AAPL", timestamp := 0,
         priority := "MEDIUM" },
       { type := .enum .TARGET_HIT, symbol := "AAPL", timestamp := 3700,
         priority := "MEDIUM" }] ∧
    cooldown_period < (4000 : ℤ) - 0 ∧
    (filter_duplicate_alerts
        [{ type := .enum .TARGET_HIT, symbol := "AAPL", timestamp := 0,
           priority := "MEDIUM" },
         { type := .enum .TARGET_HIT, symbol := "AAPL", timestamp := 3700,
           priority := "MEDIUM" }] 4000
        [{ type := .enum .TARGET_HIT, symbol := "AAPL", timestamp := 4000,
           priority := "HIGH" }]).1 = [] := by
  refine ⟨?_, ?_, ?_, ?_⟩ <;> decide

/-- The `[-100:]` truncation yields at most `n` entries. -/
theorem takeLast_length_le (n : ℕ) (l : List α) : (takeLast n l).length ≤ n := by
  unfold takeLast
  rw [List.length_drop]
  omega

/-- Truncating, appending, and truncating again is the same as truncating
the full concatenation: the kept suffix only depends on the last `n`
elements. -/
theorem takeLast_append_takeLast (n : ℕ) (xs ys : List α) :
    takeLast n (takeLast n xs ++ ys) = takeLast n (xs ++ ys) := by
  unfold takeLast
  rcases Nat.le_total xs.length n with hxn | hxn
  · rw [Nat.sub_eq_zero_of_le hxn, List.drop_zero]
  · have hlen : (xs.drop (xs.length - n)).length = n := by
      rw [List.length_drop]
      omega
    rcases Nat.le_total n ys.length with hny | hny
    · have hkL : (xs.drop (xs.length - n) ++ ys).length - n =
          (xs.drop (xs.length - n)).length + (ys.length - n) := by
        rw [List.length_append, hlen]
        omega
      have hkR : (xs ++ ys).length - n = xs.length + (ys.length - n) := by
        rw [List.length_append]
        omega
      rw [hkL, hkR, List.drop_append, List.drop_append]
    · have hkL : (xs.drop (xs.length - n) ++ ys).length - n = ys.length := by
        rw [List.length_append, hlen]
        omega
      have hkL' : ys.length ≤ (xs.drop (xs.length - n)).length := by
        rw [hlen]
        exact hny
      have hkR' : (xs ++ ys).length - n ≤ xs.length := by
        rw [List.length_append]
        omega
      rw [hkL, List.drop_append_of_le_length hkL', List.drop_drop,
        List.drop_append_of_le_length hkR',
        show xs.length - n + ys.length = (xs ++ ys).length - n by
          rw [List.length_append]; omega]

/-- Shape of one dedup call: the new history is the last-100 truncation of
the old history extended by exactly the admitted output batch. -/
theorem filter_duplicate_alerts_hist_shape (hist : List Alert) (t : ℤ)
    (news : List Alert) :
    (filter_duplicate_alerts hist t news).2 =
      takeLast 100 (hist ++ (filter_duplicate_alerts hist t news).1) := by
  unfold filter_duplicate_alerts
  obtain ⟨d, hd, -⟩ := dedup_foldl_state t news [] hist
  rw [hd]
  simp

/-- C2: after every call of a run of the dedup filter from the empty
history, the history is exactly the last-100 suffix (most recent kept,
oldest evicted first, FIFO by insertion order, regardless of cooldown) of
all alerts admitted so far, and so has length at most 100 — in particular
after admitting 150 distinct alerts. -/
theorem dedup_history_bound (calls : List (ℤ × List Alert)) :
    (runTrace calls).2 = takeLast 100 (runTrace calls).1 ∧
      ((runTrace calls).2).length ≤ 100 := by
  have key : ∀ (cs : List (ℤ × List Alert)) (st : List Alert × List Alert),
      st.2 = takeLast 100 st.1 →
      (cs.foldl (fun st call =>
          let r := filter_duplicate_alerts st.2 call.1 call.2
          (st.1 ++ r.1, r.2)) st).2 =
        takeLast 100 (cs.foldl (fun st call =>
          let r := filter_duplicate_alerts st.2 call.1 call.2
          (st.1 ++ r.1, r.2)) st).1 := by
    intro cs
    induction cs with
    | nil => intro st h; exact h
    | cons c tl ih =>
      intro st h
      rw [List.foldl_cons]
      refine ih _ ?_
      dsimp only
      rw [filter_duplicate_alerts_hist_shape, h, takeLast_append_takeLast]
  have h1 : (runTrace calls).2 = takeLast 100 (runTrace calls).1 := by
    unfold runTrace
    exact key calls ([], []) (by simp [takeLast])
  refine ⟨h1, ?_⟩
  rw [h1]
  exact takeLast_length_le 100 _

/-- C9: the "approaching" alerts reuse the TARGET_HIT / STOP_LOSS types
(with priority MEDIUM), and the dedup filter keys only on (symbol, type):
so a remembered approaching-target alert suppresses a later actual
target-hit alert (priority HIGH) within the cooldown, and a remembered
approaching-stop alert suppresses a later actual stop-loss alert
(priority CRITICAL). -/
theorem approaching_reuse_suppresses_hits :
    (∀ (now : ℤ) (d : StockData), d.current_price ≠ 0 → d.target_price ≠ 0 →
      d.stop_loss ≠ 0 → d.buy_price ≠ 0 →
      d.target_price * (95 / 100) ≤ d.current_price →
      d.current_price < d.target_price →
      (check_price_alerts now d).filter
        (fun a => decide (a.type = AlertTag.enum AlertType.TARGET_HIT ∧
          a.priority = "MEDIUM")) ≠ []) ∧
    (∀ (now : ℤ) (d : StockData), d.current_price ≠ 0 → d.target_price ≠ 0 →
      d.stop_loss ≠ 0 → d.buy_price ≠ 0 →
      d.stop_loss < d.current_price →
      d.current_price ≤ d.stop_loss * (105 / 100) →
      ¬(d.target_price * (95 / 100) ≤ d.current_price ∧
        d.current_price < d.target_price) →
      (check_price_alerts now d).filter
        (fun a => decide (a.type = AlertTag.enum AlertType.STOP_LOSS ∧
          a.priority = "MEDIUM")) ≠ []) ∧
    (∀ (hist news : List Alert) (now : ℤ) (a b : Alert), a ∈ hist →
      a.type = AlertTag.enum AlertType.TARGET_HIT → a.priority = "MEDIUM" →
      now - a.timestamp < cooldown_period →
      b.symbol = a.symbol → b.type = AlertTag.enum AlertType.TARGET_HIT →
      b.priority = "HIGH" →
      b ∉ (filter_duplicate_alerts hist now news).1) ∧
    (∀ (hist news : List Alert) (now : ℤ) (a b : Alert), a ∈ hist →
      a.type = AlertTag.enum AlertType.STOP_LOSS → a.priority = "MEDIUM" →
      now - a.timestamp < cooldown_period →
      b.symbol = a.symbol → b.type = AlertTag.enum AlertType.STOP_LOSS →
      b.priority = "CRITICAL" →
      b ∉ (filter_duplicate_alerts hist now news).1) := by
  refine ⟨?_, ?_, ?_, ?_⟩
  · intro now d h1 h2 h3 h4 hta htb
    unfold check_price_alerts
    rw [if_neg (by push_neg; exact ⟨h1, h2, h3, h4⟩)]
    dsimp only
    split_ifs <;> simp_all [List.filter] <;> linarith
  · intro now d h1 h2 h3 h4 hlo hhi hnot
    unfold check_price_alerts
    rw [if_neg (by push_neg; exact ⟨h1, h2, h3, h4⟩)]
    dsimp only
    split_ifs <;> simp_all [List.filter]
  · intro hist news now a b ha hat hap hfresh hbs hbt hbp hmem
    unfold filter_duplicate_alerts at hmem
    dsimp only at hmem
    have := dedup_foldl_suppress now a news [] hist ha hfresh b hmem hbs
      (hbt.trans hat.symm)
    simp at this
  · intro hist news now a b ha hat hap hfresh hbs hbt hbp hmem
    unfold filter_duplicate_alerts at hmem
    dsimp only at hmem
    have := dedup_foldl_suppress now a news [] hist ha hfresh b hmem hbs
      (hbt.trans hat.symm)
    simp at this

/-- C9 witness: approaching-target / approaching-stop alerts carry the
reused hit types with priority MEDIUM, and with such an entry in history
the corresponding actual hit alert is suppressed within the cooldown. -/
theorem approaching_reuse_suppresses_hits_witness :
    ((check_price_alerts 0 ⟨"W", 96, 100, 50, 80⟩).filter
        (fun a => decide (a.type = AlertTag.enum AlertType.TARGET_HIT ∧
          a.priority = "MEDIUM")) ≠ []) ∧
    ((check_price_alerts 0 ⟨"W", 96, 200, 92, 80⟩).filter
        (fun a => decide (a.type = AlertTag.enum AlertType.STOP_LOSS ∧
          a.priority = "MEDIUM")) ≠ []) ∧
    ({ type := .enum .TARGET_HIT, symbol := "W", timestamp := 50,
       priority := "HIGH" } : Alert) ∉
      (filter_duplicate_alerts
        [{ type := .enum .TARGET_HIT, symbol := "W", timestamp := 0,
           priority := "MEDIUM" }] 50
        [{ type := .enum .TARGET_HIT, symbol := "W", timestamp := 50,
           priority := "HIGH" }]).1 ∧
    ({ type := .enum .STOP_LOSS, symbol := "W", timestamp := 50,
       priority := "CRITICAL" } : Alert) ∉
      (filter_duplicate_alerts
        [{ type := .enum .STOP_LOSS, symbol := "W", timestamp := 0,
           priority := "MEDIUM" }] 50
        [{ type := .enum .STOP_LOSS, symbol := "W", timestamp := 50,
           priority := "CRITICAL" }]).1 := by
  refine ⟨?_, ?_, ?_, ?_⟩
  · exact approaching_reuse_suppresses_hits.1 0 ⟨"W", 96, 100, 50, 80⟩
      (by norm_num) (by norm_num) (by norm_num) (by norm_num)
      (by norm_num) (by norm_num)
  · exact approaching_reuse_suppresses_hits.2.1 0 ⟨"W", 96, 200, 92, 80⟩
      (by norm_num) (by norm_num) (by norm_num) (by norm_num)
      (by norm_num) (by norm_num) (by norm_num)
  · exact approaching_reuse_suppresses_hits.2.2.1 _ _ 50
      { type := .enum .TARGET_HIT, symbol := "W", timestamp := 0,
        priority := "MEDIUM" } _
      (List.mem_singleton_self _) rfl rfl (by decide) rfl rfl rfl
  · exact approaching_reuse_suppresses_hits.2.2.2 _ _ 50
      { type := .enum .STOP_LOSS, symbol := "W", timestamp := 0,
        priority := "MEDIUM" } _
      (List.mem_singleton_self _) rfl rfl (by decide) rfl rfl rfl

/-- The accumulation loop computes the claim-side counts and sum: the
profitable count, losing count and total pnl over exactly the records
with positive prices. -/
theorem portfolioFold_eq (stocks : List StockData) :
    portfolioFold stocks =
      (spec_profitable stocks, spec_losing stocks, spec_total_pnl stocks) := by
  have go : ∀ (l : List StockData) (acc : ℕ × ℕ × ℚ),
      l.foldl portfolioStep acc =
        (acc.1 + spec_profitable l, acc.2.1 + spec_losing l,
          acc.2.2 + spec_total_pnl l) := by
    intro l
    induction l with
    | nil =>
      intro acc
      simp [spec_profitable, spec_losing, spec_total_pnl]
    | cons s tl ih =>
      intro acc
      rw [List.foldl_cons, ih]
      by_cases hv : s.buy_price > 0 ∧ s.current_price > 0
      · have e3 : spec_total_pnl (s :: tl) =
            pnl_percent s.buy_price s.current_price + spec_total_pnl tl := by
          simp [spec_total_pnl, hv]
        by_cases hp : pnl_percent s.buy_price s.current_price > 0
        · have e1 : spec_profitable (s :: tl) = 1 + spec_profitable tl := by
            simp [spec_profitable, hv.1, hv.2, hp]
          have e2 : spec_losing (s :: tl) = spec_losing tl := by
            simp [spec_losing, hp]
          have e4 : portfolioStep acc s =
              (acc.1 + 1, acc.2.1,
                acc.2.2 + pnl_percent s.buy_price s.current_price) := by
            simp [portfolioStep, hv, hp]
          rw [e1, e2, e3, e4]
          dsimp only
          simp only [Prod.mk.injEq]
          refine ⟨?_, ?_, ?_⟩ <;> first | trivial | omega | ring
        · have e1 : spec_profitable (s :: tl) = spec_profitable tl := by
            simp [spec_profitable, hp]
          have e2 : spec_losing (s :: tl) = 1 + spec_losing tl := by
            simp [spec_losing, hv.1, hv.2, hp]
          have e4 : portfolioStep acc s =
              (acc.1, acc.2.1 + 1,
                acc.2.2 + pnl_percent s.buy_price s.current_price) := by
            simp [portfolioStep, hv, hp]
          rw [e1, e2, e3, e4]
          dsimp only
          simp only [Prod.mk.injEq]
          refine ⟨?_, ?_, ?_⟩ <;> first | trivial | omega | ring
      · have e1 : spec_profitable (s :: tl) = spec_profitable tl := by
          simp only [spec_profitable]
          rw [if_neg (fun hc => hv ⟨hc.1, hc.2.1⟩)]
          omega
        have e2 : spec_losing (s :: tl) = spec_losing tl := by
          simp only [spec_losing]
          rw [if_neg (fun hc => hv ⟨hc.1, hc.2.1⟩)]
          omega
        have e3 : spec_total_pnl (s :: tl) = spec_total_pnl tl := by
          simp [spec_total_pnl, hv]
        have e4 : portfolioStep acc s = acc := by
          simp [portfolioStep, hv]
        rw [e1, e2, e3, e4]
  unfold portfolioFold
  rw [go]
  simp

/-- C7: on a non-empty record list the portfolio evaluator emits at most
one alert; it emits exactly the HIGH `portfolio_loss` alert when
avg pnl ≤ −10 (pnl summed over records with positive prices, divided by
the FULL record count), else exactly the MEDIUM `low_winrate` alert when
win rate < 30 (profitable / full count × 100), else nothing — the two
alerts are mutually exclusive by construction. -/
theorem portfolio_alert_exclusive (now : ℤ) (stocks : List StockData)
    (h : stocks ≠ []) :
    (check_portfolio_alerts now stocks).length ≤ 1 ∧
    (spec_total_pnl stocks / (stocks.length : ℚ) ≤ -10 →
      check_portfolio_alerts now stocks =
        [{ type := .str "portfolio_loss", symbol := "PORTFOLIO",
           timestamp := now, priority := "HIGH" }]) ∧
    (¬(spec_total_pnl stocks / (stocks.length : ℚ) ≤ -10) →
      (spec_profitable stocks : ℚ) / (stocks.length : ℚ) * 100 < 30 →
      check_portfolio_alerts now stocks =
        [{ type := .str "low_winrate", symbol := "PORTFOLIO",
           timestamp := now, priority := "MEDIUM" }]) ∧
    (¬(spec_total_pnl stocks / (stocks.length : ℚ) ≤ -10) →
      ¬((spec_profitable stocks : ℚ) / (stocks.length : ℚ) * 100 < 30) →
      check_portfolio_alerts now stocks = []) := by
  have havg : portfolio_avg_pnl stocks =
      spec_total_pnl stocks / (stocks.length : ℚ) := by
    unfold portfolio_avg_pnl
    rw [portfolioFold_eq]
  have hwin : portfolio_win_rate stocks =
      (spec_profitable stocks : ℚ) / (stocks.length : ℚ) * 100 := by
    unfold portfolio_win_rate
    rw [portfolioFold_eq]
  have hne : ¬stocks.isEmpty = true := by
    simp [h]
  have hlen : 0 < stocks.length := List.length_pos.mpr h
  unfold check_portfolio_alerts
  rw [if_neg hne, if_pos hlen, havg, hwin]
  refine ⟨?_, fun h1 => ?_, fun h1 h2 => ?_, fun h1 h2 => ?_⟩
  · split_ifs <;> simp
  · rw [if_pos h1]
  · rw [if_neg h1, if_pos h2]
  · rw [if_neg h1, if_neg h2]

/-- C7 witness: two records, buy 100 / current 80 and buy 100 /
current 82, give avg pnl −19 ≤ −10 and exactly the `portfolio_loss`
alert. -/
theorem portfolio_alert_exclusive_witness :
    check_portfolio_alerts 5 [⟨"P1", 80, 0, 0, 100⟩, ⟨"P2", 82, 0, 0, 100⟩] =
      [{ type := .str "portfolio_loss", symbol := "PORTFOLIO",
         timestamp := 5, priority := "HIGH" }] ∧
    (check_portfolio_alerts 5
      [⟨"P1", 80, 0, 0, 100⟩, ⟨"P2", 82, 0, 0, 100⟩]).length ≤ 1 := by
  have h := portfolio_alert_exclusive 5
    [⟨"P1", 80, 0, 0, 100⟩, ⟨"P2", 82, 0, 0, 100⟩] (by simp)
  exact ⟨h.2.1 (by norm_num [spec_total_pnl, pnl_percent]), h.1⟩

/-- A bind whose left side raises propagates the error. -/
theorem except_bind_error_left {α β : Type} (x : Except String α)
    (k : α → Except String β) (h : ∃ e, x = .error e) :
    ∃ e, Except.bind x k = .error e := by
  obtain ⟨e, he⟩ := h
  subst he
  exact ⟨e, rfl⟩

/-- A bind whose continuation always raises, raises. -/
theorem except_bind_error_right {α β : Type} (x : Except String α)
    (k : α → Except String β) (h : ∀ s, ∃ e, k s = .error e) :
    ∃ e, Except.bind x k = .error e := by
  cases x with
  | error e => exact ⟨e, rfl⟩
  | ok s =>
    obtain ⟨e, he⟩ := h s
    exact ⟨e, he⟩

/-- Rendering a bucket that contains a string-tagged alert raises
(`AttributeError` on `.value`), whatever the accumulated text is. -/
theorem bucketLines_error :
    ∀ (l : List Alert), (∃ a ∈ l, ∃ s, a.type = AlertTag.str s) →
      ∀ acc, ∃ e, bucketLines l acc = .error e := by
  intro l
  induction l with
  | nil =>
    rintro ⟨a, hmem, -⟩
    simp at hmem
  | cons h tl ih =>
    rintro ⟨a, hmem, s, hs⟩ acc
    cases htag : h.type with
    | str t =>
      refine ⟨"AttributeError: Alert type string has no attribute value", ?_⟩
      unfold bucketLines
      rw [List.foldlM_cons, htag]
      rfl
    | enum t =>
      rcases List.mem_cons.1 hmem with rfl | hmem2
      · rw [htag] at hs
        exact absurd hs (by simp)
      · obtain ⟨e, he⟩ := ih ⟨a, hmem2, s, hs⟩
          (acc ++ "• " ++ h.symbol ++ ": " ++ humanize t.value ++ "\n")
        refine ⟨e, ?_⟩
        unfold bucketLines at he ⊢
        rw [List.foldlM_cons, htag]
        exact he

/-- C10: the summary renderer is not total over the engine's own alerts:
any list containing a portfolio alert (string-tagged type, priority
CRITICAL/HIGH/MEDIUM) makes `get_alert_summary` raise on `type.value`
instead of returning a summary string. -/
theorem summary_portfolio_alert_error (alerts : List Alert)
    (h : ∃ a ∈ alerts,
      (a.type = AlertTag.str "portfolio_loss" ∨
        a.type = AlertTag.str "low_winrate") ∧
      (a.priority = "CRITICAL" ∨ a.priority = "HIGH" ∨
        a.priority = "MEDIUM")) :
    ∃ e, get_alert_summary alerts = .error e := by
  obtain ⟨a, hmem, htag, hpri⟩ := h
  have hstr : ∃ s, a.type = AlertTag.str s := by
    rcases htag with h | h
    · exact ⟨_, h⟩
    · exact ⟨_, h⟩
  have hne : ¬alerts.isEmpty = true := by
    cases alerts with
    | nil => simp at hmem
    | cons x xs => simp
  unfold get_alert_summary
  rw [if_neg hne]
  dsimp only
  rcases hpri with hp | hp | hp
  · have hmemb : a ∈ alerts.filter fun x => decide (x.priority = "CRITICAL") :=
      List.mem_filter.2 ⟨hmem, by simp [hp]⟩
    have hnb : ¬(alerts.filter fun x =>
        decide (x.priority = "CRITICAL")).isEmpty = true := by
      simp only [List.isEmpty_iff]
      exact List.ne_nil_of_mem hmemb
    refine except_bind_error_left _ _ ?_
    rw [if_neg hnb]
    obtain ⟨e, he⟩ := bucketLines_error _ ⟨a, hmemb, hstr⟩
      ("📋 **Alert Summary** (" ++ toString alerts.length ++ " alerts)\n\n" ++
        "🚨 **CRITICAL (" ++
        toString (alerts.filter fun x => decide (x.priority = "CRITICAL")).length ++
        "):**\n")
    refine ⟨e, ?_⟩
    rw [he]
    rfl
  · have hmemb : a ∈ alerts.filter fun x => decide (x.priority = "HIGH") :=
      List.mem_filter.2 ⟨hmem, by simp [hp]⟩
    have hnb : ¬(alerts.filter fun x =>
        decide (x.priority = "HIGH")).isEmpty = true := by
      simp only [List.isEmpty_iff]
      exact List.ne_nil_of_mem hmemb
    refine except_bind_error_right _ _ ?_
    intro s1
    refine except_bind_error_left _ _ ?_
    rw [if_neg hnb]
    obtain ⟨e, he⟩ := bucketLines_error _ ⟨a, hmemb, hstr⟩
      (s1 ++ "❗ **HIGH (" ++
        toString (alerts.filter fun x => decide (x.priority = "HIGH")).length ++
        "):**\n")
    refine ⟨e, ?_⟩
    rw [he]
    rfl
  · have hmemb : a ∈ alerts.filter fun x => decide (x.priority = "MEDIUM") :=
      List.mem_filter.2 ⟨hmem, by simp [hp]⟩
    have hnb : ¬(alerts.filter fun x =>
        decide (x.priority = "MEDIUM")).isEmpty = true := by
      simp only [List.isEmpty_iff]
      exact List.ne_nil_of_mem hmemb
    refine except_bind_error_right _ _ ?_
    intro s1
    refine except_bind_error_right _ _ ?_
    intro s2
    rw [if_neg hnb]
    exact bucketLines_error _ ⟨a, hmemb, hstr⟩ _

/-- C10 witness: the summary of a single `portfolio_loss` alert raises
(no summary string is produced). -/
theorem summary_portfolio_alert_error_witness :
    (get_alert_summary
      [{ type := .str "portfolio_loss", symbol := "PORTFOLIO",
         timestamp := 0, priority := "HIGH" }]).toOption = none := by
  obtain ⟨e, he⟩ := summary_portfolio_alert_error
    [{ type := .str "portfolio_loss", symbol := "PORTFOLIO",
       timestamp := 0, priority := "HIGH" }]
    ⟨_, List.mem_singleton_self _, Or.inl rfl, Or.inr (Or.inl rfl)⟩
  rw [he]
  rfl

end StockBot
